import Mathlib

/-!
Shallow embedding of `src/dist/collapsible.js` (class `Collapsible`), a
navbar-collapsing widget. Items live inside a container; each item has a
measured width captured once at construction. `getAmountOfItemsToCollapse`
walks the items accumulating a running width sum and returns how many
trailing items must be hidden; `collapse` applies that partition to the
visibility ("hide" class) of items, their clones in the overflow dropdown,
and the dropdown menu control itself; `inject` builds the dropdown once;
`render` wires `collapse` to container-resize notifications.

Numbers (widths, the page width, the threshold) are modelled as integers;
class-list membership of the "hide" class is a `Bool`; the DOM lists of
items and clones are `List Bool` of hide-flags.
-/

namespace Collapsible

/-- A list item of the container, carrying its measured width
(`getBoundingClientRect().width`). -/
structure Item where
  width : ℤ
deriving DecidableEq

/-- The items' container: `querySelectorAll('li')` yields its list items in
document order. -/
structure Container where
  lis : List Item
deriving DecidableEq

/-- The host document, restricted to the capability the constructor uses:
resolving a selector string to an element, or to nothing. -/
def Document : Type := String → Option Container

/-- `queryContainer` from the source: `document.querySelector(selector)`;
throws `Collapsible: No element find using "<selector>" selector` when the
lookup yields nothing, otherwise returns the container. -/
def queryContainer (doc : Document) (selector : String) : Except String Container :=
  match doc selector with
  | some container => .ok container
  | none => .error ("Collapsible: No element find using \"" ++ selector ++ "\" selector")

/-- `getItemsDimensions` from the source: one measured width per item, in
order. -/
def getItemsDimensions (items : List Item) : List ℤ :=
  items.map Item.width

/-- The instance state built by the constructor: the resolved container, the
threshold, the captured item list and the captured widths. -/
structure Instance where
  container : Container
  threshold : ℤ
  items : List Item
  itemsDimensions : List ℤ
deriving DecidableEq

/-- The constructor: resolve the container (propagating the
`queryContainer` error, in which case no instance state is created), then
capture the items and their dimensions. -/
def construct (doc : Document) (selector : String) (threshold : ℤ) :
    Except String Instance :=
  match queryContainer doc selector with
  | .error e => .error e
  | .ok container =>
    let items := container.lis
    .ok { container := container, threshold := threshold, items := items,
          itemsDimensions := getItemsDimensions items }

/-- The loop body of `getAmountOfItemsToCollapse`: walking the remaining
widths with the running sum `acc` (`renderable.width`), it returns the value
`renderable.amount` reaches before the loop breaks: an item is counted only
when `pageWidth - renderable.width < threshold` is false after adding its
width, and the first item failing that check stops the walk uncounted. -/
def renderableAmount (pageWidth threshold : ℤ) : List ℤ → ℤ → ℕ
  | [], _ => 0
  | w :: ws, acc =>
    if pageWidth - (acc + w) < threshold then 0
    else renderableAmount pageWidth threshold ws (acc + w) + 1

/-- `getAmountOfItemsToCollapse` from the source: the item count minus the
amount of renderable items. `pageWidth` stands for
`document.body.offsetWidth`, read at call time. -/
def getAmountOfItemsToCollapse (widths : List ℤ) (pageWidth threshold : ℤ) : ℕ :=
  widths.length - renderableAmount pageWidth threshold widths 0

/-- The visibility state `collapse` mutates: whether the menu control, each
original item, and each clone in the dropdown carry the `hide` class. -/
structure CollapseState where
  menuHide : Bool
  itemHide : List Bool
  cloneHide : List Bool
deriving DecidableEq

/-- The trailing `for` loop of `collapse`: for `i = 0, …, count - 1`, hide
the item and reveal the clone at index `dlen - i - 1`, where `dlen` is
`dropdownItems.length`. -/
def collapsePass (ih ch : List Bool) (dlen : ℕ) : ℕ → List Bool × List Bool
  | 0 => (ih, ch)
  | i + 1 =>
    let p := collapsePass ih ch dlen i
    (p.1.set (dlen - i - 1) true, p.2.set (dlen - i - 1) false)

/-- `collapse` from the source: recompute the amount to collapse, make the
menu control visible then hide it exactly when the amount is `0`, reset
every item to visible and every clone to hidden, and run the trailing
loop. -/
def collapse (widths : List ℤ) (pageWidth threshold : ℤ) (s : CollapseState) :
    CollapseState :=
  let amountOfItemsToCollapse := getAmountOfItemsToCollapse widths pageWidth threshold
  let menuHide := decide (amountOfItemsToCollapse = 0)
  let ih0 := s.itemHide.map (fun _ => false)
  let ch0 := s.cloneHide.map (fun _ => true)
  let p := collapsePass ih0 ch0 ch0.length amountOfItemsToCollapse
  ⟨menuHide, p.1, p.2⟩

/-- A resize-notification handler subscribed on the container; the only
handler the widget ever registers is its own `collapse`. -/
inductive Handler where
  | collapse
deriving DecidableEq

/-- The page-level state `render` and the resize subscription act on: the
visibility flags plus the list of subscribed resize handlers. -/
structure World where
  menuHide : Bool
  itemHide : List Bool
  cloneHide : List Bool
  handlers : List Handler
deriving DecidableEq

/-- `inject` from the source, restricted to the state the other operations
observe: it builds the overflow menu (fresh, without the `hide` class) whose
dropdown holds one clone per captured item, each clone created with the
`hide` class. Items and handlers are untouched. -/
def inject (widths : List ℤ) (w : World) : World :=
  { w with menuHide := false, cloneHide := List.replicate widths.length true }

/-- Running `collapse` against the world: the `hide` flags are taken from
and written back to the page; `pw` is the page width read at call time. -/
def applyCollapse (widths : List ℤ) (pw th : ℤ) (w : World) : World :=
  let s := collapse widths pw th ⟨w.menuHide, w.itemHide, w.cloneHide⟩
  { w with menuHide := s.menuHide, itemHide := s.itemHide, cloneHide := s.cloneHide }

/-- `render` from the source: `inject()`, then `collapse()`, then
`new ResizeSensor(…, this.collapse.bind(this))`, i.e. subscribe `collapse`
as a resize handler. -/
def render (widths : List ℤ) (pw th : ℤ) (w : World) : World :=
  let w1 := inject widths w
  let w2 := applyCollapse widths pw th w1
  { w2 with handlers := w2.handlers ++ [Handler.collapse] }

/-- A container-resize notification: every subscribed handler runs, and the
page width it observes is the width `pw2` current at notification time. -/
def fireResize (widths : List ℤ) (th pw2 : ℤ) (w : World) : World :=
  w.handlers.foldl
    (fun acc h => match h with | Handler.collapse => applyCollapse widths pw2 th acc) w

end Collapsible

namespace Collapsible

theorem renderableAmount_le_length (pw th : ℤ) :
    ∀ (ws : List ℤ) (acc : ℤ), renderableAmount pw th ws acc ≤ ws.length := by
  intro ws
  induction ws with
  | nil => intro acc; simp [renderableAmount]
  | cons w ws ih =>
    intro acc
    simp only [renderableAmount, List.length_cons]
    split
    · omega
    · have := ih (acc + w)
      omega

theorem renderableAmount_fits (pw th : ℤ) :
    ∀ (ws : List ℤ) (acc : ℤ) (j : ℕ), j < renderableAmount pw th ws acc →
      th ≤ pw - (acc + ((ws.take (j + 1)).sum)) := by
  intro ws
  induction ws with
  | nil => intro acc j hj; simp [renderableAmount] at hj
  | cons w ws ih =>
    intro acc j hj
    simp only [renderableAmount] at hj
    split at hj
    · omega
    case isFalse hfit =>
      cases j with
      | zero =>
        simp only [List.take_succ_cons, List.take_zero, List.sum_cons, List.sum_nil]
        omega
      | succ j' =>
        have hj' : j' < renderableAmount pw th ws (acc + w) := by omega
        have := ih (acc + w) j' hj'
        simp only [List.take_succ_cons, List.sum_cons]
        omega

theorem renderableAmount_breach (pw th : ℤ) :
    ∀ (ws : List ℤ) (acc : ℤ), renderableAmount pw th ws acc < ws.length →
      pw - (acc + ((ws.take (renderableAmount pw th ws acc + 1)).sum)) < th := by
  intro ws
  induction ws with
  | nil => intro acc h; simp [renderableAmount] at h
  | cons w ws ih =>
    intro acc h
    simp only [renderableAmount, List.length_cons] at h ⊢
    split
    case isTrue hbr =>
      simp only [List.take_succ_cons, List.take_zero, List.sum_cons, List.sum_nil]
      omega
    case isFalse hfit =>
      simp only [if_neg hfit] at h
      have h' : renderableAmount pw th ws (acc + w) < ws.length := by omega
      have := ih (acc + w) h'
      simp only [List.take_succ_cons, List.sum_cons]
      omega

theorem renderableAmount_all_fit (pw th : ℤ) :
    ∀ (ws : List ℤ) (acc : ℤ),
      (∀ j < ws.length, th ≤ pw - (acc + ((ws.take (j + 1)).sum))) →
      renderableAmount pw th ws acc = ws.length := by
  intro ws
  induction ws with
  | nil => intro acc _; simp [renderableAmount]
  | cons w ws ih =>
    intro acc hall
    have h0 := hall 0 (by simp)
    simp only [List.take_succ_cons, List.take_zero, List.sum_cons, List.sum_nil] at h0
    simp only [renderableAmount, List.length_cons]
    rw [if_neg (by omega)]
    have : renderableAmount pw th ws (acc + w) = ws.length := by
      apply ih
      intro j hj
      have := hall (j + 1) (by simpa using Nat.succ_lt_succ hj)
      simp only [List.take_succ_cons, List.sum_cons] at this
      omega
    omega

theorem collapsePass_fst_length (ih ch : List Bool) (dlen : ℕ) :
    ∀ count : ℕ, ((collapsePass ih ch dlen count).1).length = ih.length := by
  intro count
  induction count with
  | zero => rfl
  | succ i ihc => simp only [collapsePass, List.length_set]; exact ihc

theorem collapsePass_snd_length (ih ch : List Bool) (dlen : ℕ) :
    ∀ count : ℕ, ((collapsePass ih ch dlen count).2).length = ch.length := by
  intro count
  induction count with
  | zero => rfl
  | succ i ihc => simp only [collapsePass, List.length_set]; exact ihc

theorem collapsePass_fst_getElem? (ih ch : List Bool) (dlen : ℕ)
    (hih : ih.length = dlen) (j : ℕ) (hj : j < dlen) :
    ∀ count : ℕ, count ≤ dlen →
      ((collapsePass ih ch dlen count).1)[j]? =
        if dlen - count ≤ j then some true else ih[j]? := by
  intro count
  induction count with
  | zero => intro _; rw [if_neg (by omega)]; rfl
  | succ i ihc =>
    intro hc
    have hrec := ihc (by omega)
    simp only [collapsePass]
    by_cases hidx : dlen - i - 1 = j
    · subst hidx
      have hlen : dlen - i - 1 < ((collapsePass ih ch dlen i).1).length := by
        rw [collapsePass_fst_length, hih]; omega
      rw [List.getElem?_set_self hlen, if_pos (by omega)]
    · rw [List.getElem?_set_ne hidx, hrec]
      by_cases hge : dlen - i ≤ j
      · rw [if_pos hge, if_pos (by omega)]
      · rw [if_neg hge, if_neg (by omega)]

theorem collapsePass_snd_getElem? (ih ch : List Bool) (dlen : ℕ)
    (hch : ch.length = dlen) (j : ℕ) (hj : j < dlen) :
    ∀ count : ℕ, count ≤ dlen →
      ((collapsePass ih ch dlen count).2)[j]? =
        if dlen - count ≤ j then some false else ch[j]? := by
  intro count
  induction count with
  | zero => intro _; rw [if_neg (by omega)]; rfl
  | succ i ihc =>
    intro hc
    have hrec := ihc (by omega)
    simp only [collapsePass]
    by_cases hidx : dlen - i - 1 = j
    · subst hidx
      have hlen : dlen - i - 1 < ((collapsePass ih ch dlen i).2).length := by
        rw [collapsePass_snd_length, hch]; omega
      rw [List.getElem?_set_self hlen, if_pos (by omega)]
    · rw [List.getElem?_set_ne hidx, hrec]
      by_cases hge : dlen - i ≤ j
      · rw [if_pos hge, if_pos (by omega)]
      · rw [if_neg hge, if_neg (by omega)]

theorem getAmount_le_length (widths : List ℤ) (pw th : ℤ) :
    getAmountOfItemsToCollapse widths pw th ≤ widths.length := by
  unfold getAmountOfItemsToCollapse
  omega

theorem collapse_menuHide (widths : List ℤ) (pw th : ℤ) (s : CollapseState) :
    (collapse widths pw th s).menuHide =
      decide (getAmountOfItemsToCollapse widths pw th = 0) := rfl

theorem collapse_itemHide_length (widths : List ℤ) (pw th : ℤ) (s : CollapseState) :
    (collapse widths pw th s).itemHide.length = s.itemHide.length := by
  simp only [collapse, collapsePass_fst_length, List.length_map]

theorem collapse_cloneHide_length (widths : List ℤ) (pw th : ℤ) (s : CollapseState) :
    (collapse widths pw th s).cloneHide.length = s.cloneHide.length := by
  simp only [collapse, collapsePass_snd_length, List.length_map]

theorem collapse_itemHide_getElem? (widths : List ℤ) (pw th : ℤ) (s : CollapseState)
    (h1 : s.itemHide.length = widths.length)
    (h2 : s.cloneHide.length = widths.length)
    (j : ℕ) (hj : j < widths.length) :
    (collapse widths pw th s).itemHide[j]? =
      some (decide (widths.length - getAmountOfItemsToCollapse widths pw th ≤ j)) := by
  have hk : getAmountOfItemsToCollapse widths pw th ≤ widths.length :=
    getAmount_le_length widths pw th
  simp only [collapse]
  have hch0 : (s.cloneHide.map (fun _ => true)).length = widths.length := by
    rw [List.length_map, h2]
  have hih0 : (s.itemHide.map (fun _ => false)).length =
      (s.cloneHide.map (fun _ => true)).length := by
    rw [List.length_map, List.length_map, h1, h2]
  rw [collapsePass_fst_getElem? _ _ _ hih0 j (by rw [hch0]; exact hj) _
    (by rw [hch0]; exact hk)]
  rw [hch0]
  have hmap : (s.itemHide.map (fun _ => false))[j]? = some false := by
    rw [List.getElem?_map, List.getElem?_eq_getElem (by rw [h1]; exact hj)]
    rfl
  by_cases hge : widths.length - getAmountOfItemsToCollapse widths pw th ≤ j
  · rw [if_pos hge]
    simp [hge]
  · rw [if_neg hge, hmap]
    simp [hge]

theorem collapse_cloneHide_getElem? (widths : List ℤ) (pw th : ℤ) (s : CollapseState)
    (h1 : s.itemHide.length = widths.length)
    (h2 : s.cloneHide.length = widths.length)
    (j : ℕ) (hj : j < widths.length) :
    (collapse widths pw th s).cloneHide[j]? =
      some (!decide (widths.length - getAmountOfItemsToCollapse widths pw th ≤ j)) := by
  have hk : getAmountOfItemsToCollapse widths pw th ≤ widths.length :=
    getAmount_le_length widths pw th
  simp only [collapse]
  have hch0 : (s.cloneHide.map (fun _ => true)).length = widths.length := by
    rw [List.length_map, h2]
  rw [collapsePass_snd_getElem? _ _ _ rfl j (by rw [hch0]; exact hj) _
    (by rw [hch0]; exact hk)]
  rw [hch0]
  have hmap : (s.cloneHide.map (fun _ => true))[j]? = some true := by
    rw [List.getElem?_map, List.getElem?_eq_getElem (by rw [h2]; exact hj)]
    rfl
  by_cases hge : widths.length - getAmountOfItemsToCollapse widths pw th ≤ j
  · rw [if_pos hge]
    simp [hge]
  · rw [if_neg hge, hmap]
    simp [hge]

theorem collapseState_eq (a b : CollapseState)
    (hm : a.menuHide = b.menuHide) (hi : a.itemHide = b.itemHide)
    (hc : a.cloneHide = b.cloneHide) : a = b := by
  cases a
  cases b
  simp_all

theorem collapse_state_independent (widths : List ℤ) (pw th : ℤ)
    (s s' : CollapseState)
    (h1 : s.itemHide.length = widths.length)
    (h2 : s.cloneHide.length = widths.length)
    (h1' : s'.itemHide.length = widths.length)
    (h2' : s'.cloneHide.length = widths.length) :
    collapse widths pw th s = collapse widths pw th s' := by
  apply collapseState_eq
  · rw [collapse_menuHide, collapse_menuHide]
  · apply List.ext_getElem?
    intro j
    by_cases hj : j < widths.length
    · rw [collapse_itemHide_getElem? widths pw th s h1 h2 j hj,
        collapse_itemHide_getElem? widths pw th s' h1' h2' j hj]
    · rw [List.getElem?_eq_none (by rw [collapse_itemHide_length, h1]; omega),
        List.getElem?_eq_none (by rw [collapse_itemHide_length, h1']; omega)]
  · apply List.ext_getElem?
    intro j
    by_cases hj : j < widths.length
    · rw [collapse_cloneHide_getElem? widths pw th s h1 h2 j hj,
        collapse_cloneHide_getElem? widths pw th s' h1' h2' j hj]
    · rw [List.getElem?_eq_none (by rw [collapse_cloneHide_length, h2]; omega),
        List.getElem?_eq_none (by rw [collapse_cloneHide_length, h2']; omega)]

theorem getAmount_first_breach (pw th w : ℤ) (ws : List ℤ) (hbr : pw - w < th) :
    getAmountOfItemsToCollapse (w :: ws) pw th = (w :: ws).length := by
  have hra : renderableAmount pw th (w :: ws) 0 = 0 := by
    simp only [renderableAmount]
    rw [if_pos (by omega)]
  unfold getAmountOfItemsToCollapse
  rw [hra]
  omega

/-- C1: `getAmountOfItemsToCollapse` walks the widths in order with a
running sum, counts an item as fitting only while the page width minus the
running sum including that item is not strictly below the threshold, stops
at the first breaching item without counting it, and returns the total item
count minus the number of fitting items; available space exactly equal to
the threshold still counts as fitting (the `≤` in the third conjunct). -/
theorem spec_count_characterization (widths : List ℤ) (pw th : ℤ) :
    getAmountOfItemsToCollapse widths pw th =
        widths.length - renderableAmount pw th widths 0 ∧
    renderableAmount pw th widths 0 ≤ widths.length ∧
    (∀ j < renderableAmount pw th widths 0,
      th ≤ pw - ((widths.take (j + 1)).sum)) ∧
    (renderableAmount pw th widths 0 < widths.length →
      pw - ((widths.take (renderableAmount pw th widths 0 + 1)).sum) < th) := by
  refine ⟨rfl, renderableAmount_le_length pw th widths 0, ?_, ?_⟩
  · intro j hj
    have := renderableAmount_fits pw th widths 0 j hj
    omega
  · intro hlt
    have := renderableAmount_breach pw th widths 0 hlt
    omega

/-- Witness for C1 at widths `[100,100,100,100,100]`, page width 350,
threshold 50: the scan stops with 3 fitting items and the breach inequality
holds at the fourth. -/
theorem spec_count_characterization_witness :
    renderableAmount 350 50 [100, 100, 100, 100, 100] 0 <
        ([100, 100, 100, 100, 100] : List ℤ).length ∧
    350 - ((([100, 100, 100, 100, 100] : List ℤ).take
        (renderableAmount 350 50 [100, 100, 100, 100, 100] 0 + 1)).sum) < 50 :=
  ⟨by decide,
   (spec_count_characterization [100, 100, 100, 100, 100] 350 50).2.2.2 (by decide)⟩

/-- C2: partition completeness. After any `collapse()` call on a state with
one clone per item, for every item index exactly one of item-visible and
clone-visible holds, where visible means the hide-flag is `false`. -/
theorem spec_partition_completeness (widths : List ℤ) (pw th : ℤ)
    (s : CollapseState)
    (h1 : s.itemHide.length = widths.length)
    (h2 : s.cloneHide.length = widths.length) :
    ∀ j < widths.length,
      Xor' ((collapse widths pw th s).itemHide[j]? = some false)
        ((collapse widths pw th s).cloneHide[j]? = some false) := by
  intro j hj
  rw [collapse_itemHide_getElem? widths pw th s h1 h2 j hj,
    collapse_cloneHide_getElem? widths pw th s h1 h2 j hj]
  by_cases hge : widths.length - getAmountOfItemsToCollapse widths pw th ≤ j
  · simp [Xor', hge]
  · simp [Xor', hge]

/-- Witness for C2 at the Scenario B input, index 0. -/
theorem spec_partition_completeness_witness :
    Xor'
      ((collapse [100, 100, 100, 100, 100] 350 50
        ⟨false, List.replicate 5 false, List.replicate 5 true⟩).itemHide[0]? =
          some false)
      ((collapse [100, 100, 100, 100, 100] 350 50
        ⟨false, List.replicate 5 false, List.replicate 5 true⟩).cloneHide[0]? =
          some false) :=
  spec_partition_completeness [100, 100, 100, 100, 100] 350 50
    ⟨false, List.replicate 5 false, List.replicate 5 true⟩
    (by decide) (by decide) 0 (by decide)

/-- C3: trailing policy. After `collapse()` with computed count `k > 0`, an
item is hidden exactly when its index lies among the last `k` positions (and
then its clone is visible); every earlier item stays visible with its clone
hidden, so nothing is removed from the middle or start. -/
theorem spec_trailing_policy (widths : List ℤ) (pw th : ℤ) (s : CollapseState)
    (h1 : s.itemHide.length = widths.length)
    (h2 : s.cloneHide.length = widths.length)
    (hk : 0 < getAmountOfItemsToCollapse widths pw th) :
    ∀ j < widths.length,
      ((collapse widths pw th s).itemHide[j]? = some true ↔
        widths.length - getAmountOfItemsToCollapse widths pw th ≤ j) ∧
      ((collapse widths pw th s).cloneHide[j]? = some false ↔
        widths.length - getAmountOfItemsToCollapse widths pw th ≤ j) := by
  intro j hj
  rw [collapse_itemHide_getElem? widths pw th s h1 h2 j hj,
    collapse_cloneHide_getElem? widths pw th s h1 h2 j hj]
  by_cases hge : widths.length - getAmountOfItemsToCollapse widths pw th ≤ j
  · simp [hge]
  · simp [hge]

/-- Witness for C3 at the Scenario B input (count 2): index 4 is hidden from
the list and its clone is visible. -/
theorem spec_trailing_policy_witness :
    ((collapse [100, 100, 100, 100, 100] 350 50
      ⟨false, List.replicate 5 false, List.replicate 5 true⟩).itemHide[4]? =
        some true ↔
      ([100, 100, 100, 100, 100] : List ℤ).length -
        getAmountOfItemsToCollapse [100, 100, 100, 100, 100] 350 50 ≤ 4) ∧
    ((collapse [100, 100, 100, 100, 100] 350 50
      ⟨false, List.replicate 5 false, List.replicate 5 true⟩).cloneHide[4]? =
        some false ↔
      ([100, 100, 100, 100, 100] : List ℤ).length -
        getAmountOfItemsToCollapse [100, 100, 100, 100, 100] 350 50 ≤ 4) :=
  spec_trailing_policy [100, 100, 100, 100, 100] 350 50
    ⟨false, List.replicate 5 false, List.replicate 5 true⟩
    (by decide) (by decide) (by decide) 4 (by decide)

/-- C4: after any `collapse()` call the overflow-menu control carries the
`hide` class exactly when the computed collapse count is zero: the class is
removed first and re-added only under `amountOfItemsToCollapse === 0`. -/
theorem spec_menu_visibility (widths : List ℤ) (pw th : ℤ) (s : CollapseState) :
    (collapse widths pw th s).menuHide = true ↔
      getAmountOfItemsToCollapse widths pw th = 0 := by
  rw [collapse_menuHide]
  simp

/-- C5: edge cases. If every item fits the count is 0; if the first item
already breaches the threshold (in particular whenever the threshold
exceeds the page width, given the nonnegative widths the DOM measures) the
count is the full item count, and a subsequent `collapse()` then hides
every item, shows every clone, and keeps the menu control visible. -/
theorem spec_edge_cases (widths : List ℤ) (pw th : ℤ) :
    ((∀ j < widths.length, th ≤ pw - ((widths.take (j + 1)).sum)) →
      getAmountOfItemsToCollapse widths pw th = 0) ∧
    (∀ (w : ℤ) (ws : List ℤ), widths = w :: ws → pw - w < th →
      getAmountOfItemsToCollapse widths pw th = widths.length) ∧
    ((∀ x ∈ widths, 0 ≤ x) → pw < th →
      getAmountOfItemsToCollapse widths pw th = widths.length) ∧
    (∀ (w : ℤ) (ws : List ℤ) (s : CollapseState), widths = w :: ws →
      pw - w < th →
      s.itemHide.length = widths.length → s.cloneHide.length = widths.length →
      (∀ j < widths.length,
        (collapse widths pw th s).itemHide[j]? = some true ∧
        (collapse widths pw th s).cloneHide[j]? = some false) ∧
      (collapse widths pw th s).menuHide = false) := by
  refine ⟨?_, ?_, ?_, ?_⟩
  · intro hall
    have hfull : renderableAmount pw th widths 0 = widths.length := by
      apply renderableAmount_all_fit
      intro j hj
      have := hall j hj
      omega
    unfold getAmountOfItemsToCollapse
    omega
  · intro w ws hw hbr
    subst hw
    exact getAmount_first_breach pw th w ws hbr
  · intro hnn hlt
    cases widths with
    | nil => simp [getAmountOfItemsToCollapse, renderableAmount]
    | cons w ws =>
      have hw : (0 : ℤ) ≤ w := hnn w (List.mem_cons_self w ws)
      exact getAmount_first_breach pw th w ws (by omega)
  · intro w ws s hw hbr h1 h2
    have hcount : getAmountOfItemsToCollapse widths pw th = widths.length := by
      subst hw
      exact getAmount_first_breach pw th w ws hbr
    constructor
    · intro j hj
      rw [collapse_itemHide_getElem? widths pw th s h1 h2 j hj,
        collapse_cloneHide_getElem? widths pw th s h1 h2 j hj, hcount]
      simp
    · rw [collapse_menuHide, hcount]
      subst hw
      simp

/-- Witness for C5: with one item of width 100, page width 40 and threshold
50 everything collapses; the all-fit branch is exercised at Scenario A, and
the subsequent `collapse()` keeps the menu visible. -/
theorem spec_edge_cases_witness :
    getAmountOfItemsToCollapse [100] 40 50 = ([100] : List ℤ).length ∧
    getAmountOfItemsToCollapse [100, 100, 100, 100, 100] 600 50 = 0 ∧
    (collapse [100] 40 50 ⟨false, [false], [true]⟩).menuHide = false :=
  ⟨(spec_edge_cases [100] 40 50).2.1 100 [] rfl (by decide),
   (spec_edge_cases [100, 100, 100, 100, 100] 600 50).1 (by decide),
   ((spec_edge_cases [100] 40 50).2.2.2 100 [] ⟨false, [false], [true]⟩ rfl
     (by decide) (by decide) (by decide)).2⟩

/-- C6: Scenario B. For widths `[100,100,100,100,100]`, page width 350 and
threshold 50, three items fit (available space 250, 150, 50 — 50 is not
strictly below the threshold — then −50 stops the scan), the count is 2,
and `collapse()` from the post-injection baseline hides exactly items 4 and
5, shows exactly their clones, and leaves the menu control visible. -/
theorem spec_scenario_b :
    renderableAmount 350 50 [100, 100, 100, 100, 100] 0 = 3 ∧
    getAmountOfItemsToCollapse [100, 100, 100, 100, 100] 350 50 = 2 ∧
    collapse [100, 100, 100, 100, 100] 350 50
        ⟨false, List.replicate 5 false, List.replicate 5 true⟩ =
      ⟨false, [false, false, false, true, true],
        [true, true, true, false, false]⟩ := by
  decide

/-- C7: idempotence and state-independence. For a fixed width sequence,
page width and threshold, `collapse()` produces the same state whatever
visibility state the items and clones were in before the call, and a second
`collapse()` leaves the state unchanged. -/
theorem spec_collapse_idempotent (widths : List ℤ) (pw th : ℤ)
    (s t : CollapseState)
    (h1 : s.itemHide.length = widths.length)
    (h2 : s.cloneHide.length = widths.length)
    (h3 : t.itemHide.length = widths.length)
    (h4 : t.cloneHide.length = widths.length) :
    collapse widths pw th s = collapse widths pw th t ∧
    collapse widths pw th (collapse widths pw th s) = collapse widths pw th s := by
  constructor
  · exact collapse_state_independent widths pw th s t h1 h2 h3 h4
  · apply collapse_state_independent widths pw th _ s _ _ h1 h2
    · rw [collapse_itemHide_length]; exact h1
    · rw [collapse_cloneHide_length]; exact h2

/-- Witness for C7: two different starting states at the Scenario B input
collapse to the same state, and collapsing twice is collapsing once. -/
theorem spec_collapse_idempotent_witness :
    collapse [100, 100, 100, 100, 100] 350 50
        ⟨true, List.replicate 5 true, List.replicate 5 false⟩ =
      collapse [100, 100, 100, 100, 100] 350 50
        ⟨false, List.replicate 5 false, List.replicate 5 true⟩ ∧
    collapse [100, 100, 100, 100, 100] 350 50
        (collapse [100, 100, 100, 100, 100] 350 50
          ⟨true, List.replicate 5 true, List.replicate 5 false⟩) =
      collapse [100, 100, 100, 100, 100] 350 50
        ⟨true, List.replicate 5 true, List.replicate 5 false⟩ :=
  spec_collapse_idempotent [100, 100, 100, 100, 100] 350 50
    ⟨true, List.replicate 5 true, List.replicate 5 false⟩
    ⟨false, List.replicate 5 false, List.replicate 5 true⟩
    (by decide) (by decide) (by decide) (by decide)

/-- C8: construction. When the locator resolves to nothing, construction
fails with the `ContainerNotFound`-style error raised from the container
lookup and builds no instance state; when it resolves, construction
succeeds and the instance holds the resolved container (with the items and
widths captured from it). -/
theorem spec_construction (doc : Document) (selector : String) (th : ℤ) :
    (doc selector = none →
      construct doc selector th =
        .error ("Collapsible: No element find using \"" ++ selector ++
          "\" selector")) ∧
    (∀ c : Container, doc selector = some c →
      construct doc selector th =
        .ok { container := c, threshold := th, items := c.lis,
              itemsDimensions := getItemsDimensions c.lis }) := by
  constructor
  · intro h
    simp [construct, queryContainer, h]
  · intro c h
    simp [construct, queryContainer, h]

/-- Witness for C8 on a one-page document exposing only `#nav`: lookup of
`#missing` fails with the error, lookup of `#nav` returns the container. -/
theorem spec_construction_witness :
    construct (fun sel => if sel = "#nav" then some ⟨[⟨100⟩]⟩ else none)
        "#missing" 50 =
      .error ("Collapsible: No element find using \"" ++ "#missing" ++
        "\" selector") ∧
    construct (fun sel => if sel = "#nav" then some ⟨[⟨100⟩]⟩ else none)
        "#nav" 50 =
      .ok { container := ⟨[⟨100⟩]⟩, threshold := 50, items := [⟨100⟩],
            itemsDimensions := getItemsDimensions [⟨100⟩] } :=
  ⟨(spec_construction (fun sel => if sel = "#nav" then some ⟨[⟨100⟩]⟩ else none)
      "#missing" 50).1 (by decide),
   (spec_construction (fun sel => if sel = "#nav" then some ⟨[⟨100⟩]⟩ else none)
      "#nav" 50).2 ⟨[⟨100⟩]⟩ (by decide)⟩

/-- C9: `render()` injects first, then collapses, then subscribes
`collapse` as the resize handler; consequently, on a fresh page every later
resize notification re-runs `collapse` at the page width current at that
moment. -/
theorem spec_render_wiring (widths : List ℤ) (pw th : ℤ) (w : World) :
    render widths pw th w =
      { applyCollapse widths pw th (inject widths w) with
          handlers := w.handlers ++ [Handler.collapse] } ∧
    (render widths pw th w).handlers = w.handlers ++ [Handler.collapse] ∧
    (w.handlers = [] → ∀ pw2 : ℤ,
      fireResize widths th pw2 (render widths pw th w) =
        applyCollapse widths pw2 th (render widths pw th w)) := by
  refine ⟨rfl, rfl, ?_⟩
  intro hE pw2
  have hh : (render widths pw th w).handlers = [Handler.collapse] := by
    show w.handlers ++ [Handler.collapse] = [Handler.collapse]
    rw [hE]
    rfl
  unfold fireResize
  rw [hh]
  rfl

/-- Witness for C9 on a fresh single-item page: a resize to width 40 after
`render` at width 600 re-applies `collapse` at width 40. -/
theorem spec_render_wiring_witness :
    fireResize [100] 50 40 (render [100] 600 50 ⟨false, [false], [], []⟩) =
      applyCollapse [100] 40 50 (render [100] 600 50 ⟨false, [false], [], []⟩) :=
  (spec_render_wiring [100] 600 50 ⟨false, [false], [], []⟩).2.2 rfl 40

/-- C10: safety bound. The computed collapse count never exceeds the item
count, every index `length − i − 1` touched by the trailing loop is in
range for an item list and a clone list of that length, and `collapse`
preserves both lists' lengths. -/
theorem spec_index_safety (widths : List ℤ) (pw th : ℤ) :
    getAmountOfItemsToCollapse widths pw th ≤ widths.length ∧
    (∀ i < getAmountOfItemsToCollapse widths pw th,
      widths.length - i - 1 < widths.length) ∧
    (∀ s : CollapseState,
      (collapse widths pw th s).itemHide.length = s.itemHide.length ∧
      (collapse widths pw th s).cloneHide.length = s.cloneHide.length) := by
  refine ⟨getAmount_le_length widths pw th, ?_, ?_⟩
  · intro i hi
    have := getAmount_le_length widths pw th
    omega
  · intro s
    exact ⟨collapse_itemHide_length widths pw th s,
      collapse_cloneHide_length widths pw th s⟩

/-- Witness for C10 at a single item that must collapse: the loop's only
index, 0, is in range. -/
theorem spec_index_safety_witness :
    ([100] : List ℤ).length - 0 - 1 < ([100] : List ℤ).length :=
  (spec_index_safety [100] 40 50).2.1 0 (by decide)

end Collapsible

